import Mathlib

/-!
Verification of the filament-monitor estimation core against its
configuration header `src/filament.h`.

The repository ships only the configuration header; the acquisition,
filtering, estimation and state-machine code is described by the design
document.  Constants are embedded from `filament.h` verbatim (decimal
literals become exact rationals); the missing behavioural code is modelled
from the design document's words, each such definition carrying a
`Modelled from the spec:` doc comment.
-/

namespace FilamentMonitor

/-! ## Configuration constants, embedded from `src/filament.h` -/

/-- Roll tare in grams for the 1 kg spool (`ROLL1KG_TARE 240.0`). -/
def ROLL1KG_TARE : ℚ := 240

/-- Roll tare in grams for the 2 kg spool (`ROLL2KG_TARE 250.0`). -/
def ROLL2KG_TARE : ℚ := 250

/-- Length in cm for 1 gr of 1.75 mm PLA filament (`PLA175_1GR_CM 33.0`). -/
def PLA175_1GR_CM : ℚ := 33

/-- Weight in gr for 1 cm of 1.75 mm PLA filament (`PLA175_1CM_GR 0.03`). -/
def PLA175_1CM_GR : ℚ := 3 / 100

/-- Length in cm for 1 gr of 3.00 mm PLA filament (`PLA300_1GR_CM 11.0`). -/
def PLA300_1GR_CM : ℚ := 11

/-- Weight in gr for 1 cm of 3.00 mm PLA filament (`PLA300_1CM_GR 0.09`). -/
def PLA300_1CM_GR : ℚ := 9 / 100

/-- Length in cm for 1 gr of 1.75 mm ABS filament (`ABS175_1GR_CM 40.0`). -/
def ABS175_1GR_CM : ℚ := 40

/-- First definition of `ABS175_1CM_GR` in the header (`0.025`), under the
comment "Weight in gr for 1 cm 1.75 mm ABS filament". -/
def ABS175_1CM_GR_first : ℚ := 25 / 1000

/-- Length in cm for 1 gr of 3.00 mm ABS filament (`ABS300_1GR_CM 13.0`). -/
def ABS300_1GR_CM : ℚ := 13

/-- Second definition of `ABS175_1CM_GR` in the header (`0.076`), under the
comment "Weight in gr for 1 cm 3.00 mm ABS filament"; the header never
defines a macro named `ABS300_1CM_GR`. -/
def ABS175_1CM_GR_second : ℚ := 76 / 1000

/-- Experimental zero weight of the printed scale model
(`SCALE_CALIBRATION 428.0`). -/
def SCALE_CALIBRATION : ℚ := 428

/-- Minimum weight difference in grams to display an update
(`SCALE_RESOLUTION 0.15`). -/
def SCALE_RESOLUTION : ℚ := 15 / 100

/-- Number of samples read every loop cycle (`SCALE_SAMPLES 10`). -/
def SCALE_SAMPLES : Int := 10

/-- Minimum grams variation between two readings that is too high to be a
weight change and is taken as extruder tension (`MIN_EXTRUDER_TENSION 50`). -/
def MIN_EXTRUDER_TENSION : ℚ := 50

/-- The sequence of `#define` lines of `filament.h` that introduce
material/diameter conversion factors, in file order, as (macro name, value)
pairs.  Note the header's lines 74-77: the comment announces the weight per
cm of 3.00 mm ABS, but the macro defined is `ABS175_1CM_GR` again. -/
def conversionDefines : List (String × ℚ) :=
  [("PLA175_1GR_CM", 33),
   ("PLA175_1CM_GR", 3 / 100),
   ("PLA300_1GR_CM", 11),
   ("PLA300_1CM_GR", 9 / 100),
   ("ABS175_1GR_CM", 40),
   ("ABS175_1CM_GR", 25 / 1000),
   ("ABS300_1GR_CM", 13),
   ("ABS175_1CM_GR", 76 / 1000)]

/-! ## Data model -/

/-- A stable (accepted) weight reading: net weight in grams and the cycle
that produced it. -/
structure StableReading where
  netWeightGrams : ℚ
  timestampCycle : Int

/-- A material/diameter conversion profile loaded from the configuration
table: weight of 1 cm of filament and length of filament weighing 1 g. -/
structure MaterialProfile where
  gramsPerCm : ℚ
  cmPerGram : ℚ

/-- The PLA 1.75 mm profile as loaded from the configuration table. -/
def pla175Profile : MaterialProfile :=
  { gramsPerCm := PLA175_1CM_GR, cmPerGram := PLA175_1GR_CM }

/-- The PLA 3.00 mm profile as loaded from the configuration table. -/
def pla300Profile : MaterialProfile :=
  { gramsPerCm := PLA300_1CM_GR, cmPerGram := PLA300_1GR_CM }

/-! ## Tension Filter -/

/-- Modelled from the spec: the Tension Filter implementation is not under
`src/` (the header only defines its thresholds `SCALE_RESOLUTION` and
`MIN_EXTRUDER_TENSION`).  Per the design document it compares the averaged
net weight against the previous accepted reading: a delta below the
resolution floor is noise, a delta at or above the tension ceiling is an
extruder-tension artifact, and only `resolution ≤ |Δ| < tensionThreshold`
is a real update. -/
inductive DeltaClass
  | noise
  | realChange
  | artifact

/-- Modelled from the spec: three-band classification of an absolute weight
delta, inclusive floor and exclusive ceiling. -/
def classifyDelta (d : ℚ) : DeltaClass :=
  if d < SCALE_RESOLUTION then DeltaClass.noise
  else if d < MIN_EXTRUDER_TENSION then DeltaClass.realChange
  else DeltaClass.artifact

/-- Modelled from the spec: the Tension Filter.  A reading classified as a
real change becomes the new StableReading; noise and artifacts are held
(hold-last-good), leaving the previous StableReading unchanged. -/
def tensionFilter (prev : StableReading) (newNet : ℚ) (cycle : Int) :
    StableReading :=
  match classifyDelta |newNet - prev.netWeightGrams| with
  | DeltaClass.realChange => { netWeightGrams := newNet, timestampCycle := cycle }
  | _ => prev

/-- C1: the Tension Filter accepts the new averaged net weight as the output
StableReading exactly when `SCALE_RESOLUTION ≤ |Δ| < MIN_EXTRUDER_TENSION`
(with the configured values, `0.15 ≤ |Δ| < 50`), and in every other case
the output equals the previous StableReading unchanged. -/
theorem tensionFilter_accepts_iff_band (prev : StableReading) (newNet : ℚ)
    (cycle : Int) :
    (SCALE_RESOLUTION ≤ |newNet - prev.netWeightGrams| ∧
        |newNet - prev.netWeightGrams| < MIN_EXTRUDER_TENSION →
      tensionFilter prev newNet cycle =
        { netWeightGrams := newNet, timestampCycle := cycle }) ∧
    (¬ (SCALE_RESOLUTION ≤ |newNet - prev.netWeightGrams| ∧
        |newNet - prev.netWeightGrams| < MIN_EXTRUDER_TENSION) →
      tensionFilter prev newNet cycle = prev) ∧
    SCALE_RESOLUTION = 15 / 100 ∧ MIN_EXTRUDER_TENSION = 50 := by
  unfold tensionFilter classifyDelta
  refine ⟨?_, ?_, rfl, rfl⟩
  · rintro ⟨hlo, hhi⟩
    rw [if_neg (not_lt.mpr hlo), if_pos hhi]
  · intro h
    by_cases h1 : |newNet - prev.netWeightGrams| < SCALE_RESOLUTION
    · rw [if_pos h1]
    · rw [if_neg h1]
      have h2 : ¬ |newNet - prev.netWeightGrams| < MIN_EXTRUDER_TENSION := by
        intro h2
        exact h ⟨not_lt.mp h1, h2⟩
      rw [if_neg h2]

/-- Witness for C1: a 10 g drop (inside the band) is accepted, a 70 g jump
(at or above the ceiling) and a 0.1 g jitter (below the floor) are held. -/
theorem tensionFilter_accepts_iff_band_witness :
    tensionFilter ⟨100, 0⟩ 90 1 = ⟨90, 1⟩ ∧
    tensionFilter ⟨100, 0⟩ 170 1 = ⟨100, 0⟩ ∧
    tensionFilter ⟨100, 0⟩ (100 + 1 / 10) 1 = ⟨100, 0⟩ :=
  ⟨(tensionFilter_accepts_iff_band ⟨100, 0⟩ 90 1).1
      (by norm_num [SCALE_RESOLUTION, MIN_EXTRUDER_TENSION]),
   (tensionFilter_accepts_iff_band ⟨100, 0⟩ 170 1).2.1
      (by norm_num [SCALE_RESOLUTION, MIN_EXTRUDER_TENSION]),
   (tensionFilter_accepts_iff_band ⟨100, 0⟩ (100 + 1 / 10) 1).2.1
      (by norm_num [SCALE_RESOLUTION, MIN_EXTRUDER_TENSION, abs_of_nonneg])⟩

/-! ## Quantity Estimator -/

/-- Derived remaining-filament quantities, recomputed every cycle, together
with the `BelowZeroReading` diagnostic flag. -/
structure FilamentQuantity where
  remainingGrams : ℚ
  remainingCm : ℚ
  remainingMeters : ℚ
  belowZeroReading : Bool

/-- Modelled from the spec: the Quantity Estimator implementation is not
under `src/` (the header only defines the conversion constants).  Pure
function: grams are the reading's net weight clamped at zero (flagging
`BelowZeroReading` when negative), centimetres are grams times the
profile's cm-per-gram factor, metres are centimetres over 100. -/
def estimate (r : StableReading) (p : MaterialProfile) : FilamentQuantity :=
  let g := if r.netWeightGrams < 0 then 0 else r.netWeightGrams
  { remainingGrams := g
    remainingCm := g * p.cmPerGram
    remainingMeters := g * p.cmPerGram / 100
    belowZeroReading := decide (r.netWeightGrams < 0) }

/-- Modelled from the spec: the Calibration Unit's net-weight computation is
not under `src/`; net weight is the raw reading minus the zero offset minus
the active roll tare. -/
def netWeight (raw zeroOffset tare : ℚ) : ℚ := raw - zeroOffset - tare

/-- C2 (amended): for every StableReading with nonnegative net weight,
`estimate` returns `remainingGrams` equal to the net weight, `remainingCm`
equal to `remainingGrams` times the profile's cm-per-gram factor and
`remainingMeters` equal to `remainingCm / 100`; `estimate` is a pure Lean
function, hence deterministic and side-effect free. -/
theorem estimate_components (r : StableReading) (p : MaterialProfile)
    (h : 0 ≤ r.netWeightGrams) :
    (estimate r p).remainingGrams = r.netWeightGrams ∧
    (estimate r p).remainingCm = (estimate r p).remainingGrams * p.cmPerGram ∧
    (estimate r p).remainingMeters = (estimate r p).remainingCm / 100 :=
  ⟨if_neg (not_lt.mpr h), rfl, rfl⟩

/-- Witness for C2: at net weight 100 g with the PLA 1.75 mm profile. -/
theorem estimate_components_witness :
    (estimate ⟨100, 0⟩ pla175Profile).remainingGrams = 100 ∧
    (estimate ⟨100, 0⟩ pla175Profile).remainingCm =
      (estimate ⟨100, 0⟩ pla175Profile).remainingGrams * pla175Profile.cmPerGram ∧
    (estimate ⟨100, 0⟩ pla175Profile).remainingMeters =
      (estimate ⟨100, 0⟩ pla175Profile).remainingCm / 100 :=
  estimate_components ⟨100, 0⟩ pla175Profile (by norm_num)

/-- Counterexample to C2 as stated: at the negative net weight −240 g the
estimator clamps, so `remainingGrams` is 0, not the reading's net weight. -/
theorem estimate_not_identity_on_negative :
    (estimate ⟨-240, 0⟩ pla175Profile).remainingGrams = 0 ∧
    (estimate ⟨-240, 0⟩ pla175Profile).remainingGrams ≠ (-240 : ℚ) := by
  have hx : (if (-240 : ℚ) < 0 then (0 : ℚ) else -240) = 0 := if_pos (by norm_num)
  refine ⟨hx, ?_⟩
  show (if (-240 : ℚ) < 0 then (0 : ℚ) else -240) ≠ -240
  rw [hx]
  norm_num

/-- C3: whenever the computed net weight (raw minus zero offset minus tare)
is negative, the reported `remainingGrams` is clamped to zero and the
`BelowZeroReading` flag is raised; moreover with raw 428, zero offset 428
(the `SCALE_CALIBRATION` value) and the 1 kg roll tare 240, the net weight
is exactly −240. -/
theorem estimate_clamps_below_zero (raw zo tare : ℚ) (c : Int)
    (p : MaterialProfile) (h : netWeight raw zo tare < 0) :
    (estimate ⟨netWeight raw zo tare, c⟩ p).remainingGrams = 0 ∧
    (estimate ⟨netWeight raw zo tare, c⟩ p).belowZeroReading = true ∧
    netWeight SCALE_CALIBRATION SCALE_CALIBRATION ROLL1KG_TARE = -240 := by
  refine ⟨?_, ?_, by norm_num [netWeight, SCALE_CALIBRATION, ROLL1KG_TARE]⟩
  · simp [estimate, if_pos h]
  · simp [estimate, h]

/-- Witness for C3: the spec's scenario raw = 428, zero offset = 428,
tare = 240 gives a negative net weight, hence grams 0 and the flag set. -/
theorem estimate_clamps_below_zero_witness :
    (estimate ⟨netWeight SCALE_CALIBRATION SCALE_CALIBRATION ROLL1KG_TARE, 0⟩
        pla175Profile).remainingGrams = 0 ∧
    (estimate ⟨netWeight SCALE_CALIBRATION SCALE_CALIBRATION ROLL1KG_TARE, 0⟩
        pla175Profile).belowZeroReading = true ∧
    netWeight SCALE_CALIBRATION SCALE_CALIBRATION ROLL1KG_TARE = -240 :=
  estimate_clamps_below_zero SCALE_CALIBRATION SCALE_CALIBRATION ROLL1KG_TARE 0
    pla175Profile
    (by norm_num [netWeight, SCALE_CALIBRATION, ROLL1KG_TARE])

/-- C5: for every StableReading and profile with a nonzero cm-per-gram
factor, dividing the `remainingCm` produced by `estimate` by that factor
reproduces `remainingGrams` exactly (hence within any tolerance). -/
theorem estimate_roundtrip_cm_per_gram (r : StableReading)
    (p : MaterialProfile) (h : p.cmPerGram ≠ 0) :
    (estimate r p).remainingCm / p.cmPerGram = (estimate r p).remainingGrams := by
  simp only [estimate]
  rw [mul_div_assoc, div_self h, mul_one]

/-- Witness for C5: at net weight 100 g with the PLA 1.75 mm profile, whose
cm-per-gram factor 33 is nonzero. -/
theorem estimate_roundtrip_cm_per_gram_witness :
    (estimate ⟨100, 0⟩ pla175Profile).remainingCm / pla175Profile.cmPerGram =
      (estimate ⟨100, 0⟩ pla175Profile).remainingGrams :=
  estimate_roundtrip_cm_per_gram ⟨100, 0⟩ pla175Profile
    (by norm_num [pla175Profile, PLA175_1GR_CM])

/-- Counterexample to C9 as stated: with the PLA 1.75 mm profile the
estimator converts 100 g using the configured `PLA175_1GR_CM = 33.0`,
giving exactly 3300 cm, whereas 100 times the reciprocal of the 0.03 g/cm
factor is 10000/3 ≈ 3333.3; the two differ. -/
theorem estimate_pla175_100g_not_reciprocal :
    (estimate ⟨100, 0⟩ pla175Profile).remainingCm = 3300 ∧
    (100 : ℚ) * PLA175_1CM_GR⁻¹ = 10000 / 3 ∧
    (3300 : ℚ) ≠ 10000 / 3 := by
  have hx : (if (100 : ℚ) < 0 then (0 : ℚ) else 100) = 100 := if_neg (by norm_num)
  refine ⟨?_, ?_, by norm_num⟩
  · show (if (100 : ℚ) < 0 then (0 : ℚ) else 100) * pla175Profile.cmPerGram = 3300
    rw [hx]
    show (100 : ℚ) * PLA175_1GR_CM = 3300
    rw [show PLA175_1GR_CM = 33 from rfl]
    norm_num
  · rw [show PLA175_1CM_GR = 3 / 100 from rfl]
    norm_num

/-- C9 (amended): with the PLA 1.75 mm profile, `estimate` applied to a net
weight of 100 g returns exactly 3300 cm (33.0 m), i.e. 100 times the
configured `PLA175_1GR_CM = 33.0` — one percent below 100 × (1/0.03). -/
theorem estimate_pla175_100g :
    (estimate ⟨100, 0⟩ pla175Profile).remainingCm = 100 * PLA175_1GR_CM ∧
    (estimate ⟨100, 0⟩ pla175Profile).remainingCm = 3300 ∧
    (estimate ⟨100, 0⟩ pla175Profile).remainingMeters = 33 ∧
    (3300 : ℚ) = (99 / 100) * (10000 / 3) := by
  have hx : (if (100 : ℚ) < 0 then (0 : ℚ) else 100) = 100 := if_neg (by norm_num)
  have hcm : (100 : ℚ) * PLA175_1GR_CM = 3300 := by
    rw [show PLA175_1GR_CM = 33 from rfl]; norm_num
  refine ⟨?_, ?_, ?_, by norm_num⟩
  · show (if (100 : ℚ) < 0 then (0 : ℚ) else 100) * pla175Profile.cmPerGram =
      100 * PLA175_1GR_CM
    rw [hx]
    rfl
  · show (if (100 : ℚ) < 0 then (0 : ℚ) else 100) * pla175Profile.cmPerGram = 3300
    rw [hx]
    exact hcm
  · show (if (100 : ℚ) < 0 then (0 : ℚ) else 100) * pla175Profile.cmPerGram / 100 = 33
    rw [hx]
    show (100 : ℚ) * PLA175_1GR_CM / 100 = 33
    rw [hcm]
    norm_num

/-! ## Sample Acquirer -/

/-- Error taxonomy relevant to the Sample Acquirer. -/
inductive AcquireError
  | configError

/-- Modelled from the spec: the Sample Acquirer implementation is not under
`src/` (the header only defines `SCALE_SAMPLES`).  It reduces a burst of raw
samples to their arithmetic mean, failing with `ConfigError` when the
configured sample count is zero or negative instead of dividing by zero. -/
def sampleReduce (count : Int) (samples : List ℚ) :
    Except AcquireError ℚ :=
  if count ≤ 0 then Except.error AcquireError.configError
  else Except.ok (samples.sum / (count : ℚ))

/-- C6: for every sequence of raw samples of the configured length, the
Sample Acquirer's reduced value is exactly the arithmetic mean; for every
nonpositive configured count it fails with `ConfigError`; and the shipped
`SCALE_SAMPLES = 10` never takes that error branch. -/
theorem sampleReduce_mean (samples : List ℚ)
    (h : samples.length = SCALE_SAMPLES.toNat) :
    sampleReduce SCALE_SAMPLES samples =
      Except.ok (samples.sum / (samples.length : ℚ)) ∧
    (∀ c : Int, c ≤ 0 →
      sampleReduce c samples = Except.error AcquireError.configError) ∧
    SCALE_SAMPLES = 10 ∧ ¬ SCALE_SAMPLES ≤ 0 := by
  refine ⟨?_, ?_, rfl, by decide⟩
  · rw [h]
    simp [sampleReduce, SCALE_SAMPLES]
  · intro c hc
    simp [sampleReduce, if_pos hc]

/-- Witness for C6: the ten samples 1..10 reduce to their mean 11/2. -/
theorem sampleReduce_mean_witness :
    sampleReduce SCALE_SAMPLES [1, 2, 3, 4, 5, 6, 7, 8, 9, 10] =
      Except.ok (([1, 2, 3, 4, 5, 6, 7, 8, 9, 10] : List ℚ).sum /
        (([1, 2, 3, 4, 5, 6, 7, 8, 9, 10] : List ℚ).length : ℚ)) ∧
    (∀ c : Int, c ≤ 0 →
      sampleReduce c [1, 2, 3, 4, 5, 6, 7, 8, 9, 10] =
        Except.error AcquireError.configError) ∧
    SCALE_SAMPLES = 10 ∧ ¬ SCALE_SAMPLES ≤ 0 :=
  sampleReduce_mean [1, 2, 3, 4, 5, 6, 7, 8, 9, 10] (by rfl)

/-! ## The configuration table's conversion factors -/

/-- C4 fails on the shipped header: the table defines a length-per-gram
factor for ABS 3.00 mm (`ABS300_1GR_CM`), but no `ABS300_1CM_GR` macro ever
appears — instead the line under the "3.00 mm ABS" comment redefines
`ABS175_1CM_GR` a second time (0.025 then 0.076), so ABS at 3.00 mm has no
weight-per-cm factor and the 1.75 mm ABS factor is silently overridden. -/
theorem configTable_missing_abs300_gramsPerCm :
    (conversionDefines.map Prod.fst).contains "ABS300_1GR_CM" = true ∧
    (conversionDefines.map Prod.fst).contains "ABS300_1CM_GR" = false ∧
    conversionDefines.countP (fun kv => kv.fst == "ABS175_1CM_GR") = 2 := by
  refine ⟨rfl, rfl, rfl⟩

/-- Helper: multiplying by 99/100 removes exactly one percent. -/
theorem mul_one_sub_hundredth (g : ℚ) : g * (99 / 100) = g - g / 100 := by ring

/-- C10: the configured PLA constant pairs are not exact reciprocals — both
products equal exactly 99/100 — so a grams-to-centimetres-to-grams
round-trip computed with the configured pair returns the input minus
exactly one percent. -/
theorem pla_constant_pairs_product (g : ℚ) :
    PLA175_1GR_CM * PLA175_1CM_GR = 99 / 100 ∧
    PLA300_1GR_CM * PLA300_1CM_GR = 99 / 100 ∧
    g * PLA175_1GR_CM * PLA175_1CM_GR = g - g / 100 ∧
    g * PLA300_1GR_CM * PLA300_1CM_GR = g - g / 100 := by
  have h175 : PLA175_1GR_CM * PLA175_1CM_GR = 99 / 100 := by
    rw [show PLA175_1GR_CM = 33 from rfl, show PLA175_1CM_GR = 3 / 100 from rfl]
    norm_num
  have h300 : PLA300_1GR_CM * PLA300_1CM_GR = 99 / 100 := by
    rw [show PLA300_1GR_CM = 11 from rfl, show PLA300_1CM_GR = 9 / 100 from rfl]
    norm_num
  refine ⟨h175, h300, ?_, ?_⟩
  · rw [mul_assoc, h175, mul_one_sub_hundredth]
  · rw [mul_assoc, h300, mul_one_sub_hundredth]

/-! ## Roll Status State Machine -/

/-- The roll status enumeration, embedding the header's status codes
`STAT_NONE`, `STAT_READY`, `STAT_PRINTING`, `STAT_LOAD`. -/
inductive RollStatus
  | idleNone
  | ready
  | printing
  | load
deriving DecidableEq

/-- The header's numeric code for each status (`STAT_NONE 0`,
`STAT_READY 1`, `STAT_PRINTING 2`, `STAT_LOAD 3`). -/
def RollStatus.code : RollStatus → Nat
  | RollStatus.idleNone => 0
  | RollStatus.ready => 1
  | RollStatus.printing => 2
  | RollStatus.load => 3

/-- Full state of the Roll Status State Machine: the published status, the
last accepted StableReading (none before the first valid reading), and the
count of consecutive cycles without an accepted decreasing update. -/
structure MachineState where
  status : RollStatus
  lastReading : Option StableReading
  idleCycles : Nat

/-- The machine before any valid reading: status NONE, nothing accepted. -/
def initialMachine : MachineState :=
  { status := RollStatus.idleNone, lastReading := Option.none, idleCycles := 0 }

/-- Modelled from the spec: the Roll Status State Machine implementation is
not under `src/` (the header only defines the status codes and thresholds).
One cycle: an external set-zero/roll-tare-change event sends any state to
LOAD; otherwise the first valid reading sends NONE to READY; otherwise the
new averaged net weight is compared with the last accepted reading through
the Tension Filter bands — an accepted increase sends any state to LOAD
(roll swap), an accepted decrease sends the machine to PRINTING, and a held
reading (noise or artifact) keeps the last good reading, returns a LOAD
machine seeing a steady weight to READY, and returns PRINTING to READY
after `idleLimit` consecutive cycles without an accepted decrease (the
spec leaves that bound configurable).  `rollAccept` below is the
accepted-reading step, applied to the signed delta. -/
def rollAccept (newNet : ℚ) (cycle : Int) (d : ℚ) : MachineState :=
  if 0 < d then
    { status := RollStatus.load,
      lastReading := some { netWeightGrams := newNet, timestampCycle := cycle },
      idleCycles := 0 }
  else
    { status := RollStatus.printing,
      lastReading := some { netWeightGrams := newNet, timestampCycle := cycle },
      idleCycles := 0 }

/-- Modelled from the spec: the held-reading (hold-last-good) step of the
state machine, taking the absolute delta of the held reading. -/
def rollHold (idleLimit : Nat) (s : MachineState) (dAbs : ℚ) : MachineState :=
  if s.status = RollStatus.printing then
    (if idleLimit ≤ s.idleCycles + 1 then
      { s with status := RollStatus.ready, idleCycles := s.idleCycles + 1 }
    else
      { s with idleCycles := s.idleCycles + 1 })
  else if s.status = RollStatus.load then
    (if dAbs < SCALE_RESOLUTION then
      { s with status := RollStatus.ready, idleCycles := s.idleCycles + 1 }
    else
      { s with idleCycles := s.idleCycles + 1 })
  else { s with idleCycles := s.idleCycles + 1 }

/-- Modelled from the spec: one full cycle of the Roll Status State
Machine. -/
def rollStep (idleLimit : Nat) (s : MachineState) (externalEvent : Bool)
    (newNet : ℚ) (cycle : Int) : MachineState :=
  if externalEvent then
    { s with status := RollStatus.load }
  else
    match s.lastReading with
    | Option.none =>
        { status := RollStatus.ready,
          lastReading := some { netWeightGrams := newNet, timestampCycle := cycle },
          idleCycles := 0 }
    | some prev =>
        if SCALE_RESOLUTION ≤ |newNet - prev.netWeightGrams| ∧
            |newNet - prev.netWeightGrams| < MIN_EXTRUDER_TENSION then
          rollAccept newNet cycle (newNet - prev.netWeightGrams)
        else rollHold idleLimit s |newNet - prev.netWeightGrams|

/-- Branch lemma: an external event sends any machine state to LOAD. -/
theorem rollStep_externalEvt (idleLimit : Nat) (s : MachineState)
    (newNet : ℚ) (cycle : Int) :
    rollStep idleLimit s true newNet cycle = { s with status := RollStatus.load } :=
  rfl

/-- Branch lemma: with no previously accepted reading, the first valid
reading is accepted and the machine becomes READY. -/
theorem rollStep_firstValid (idleLimit : Nat) (st : RollStatus) (k : Nat)
    (newNet : ℚ) (cycle : Int) :
    rollStep idleLimit ⟨st, Option.none, k⟩ false newNet cycle =
      ⟨RollStatus.ready, some ⟨newNet, cycle⟩, 0⟩ :=
  rfl

/-- Branch lemma: an accepted increase sends any machine state to LOAD. -/
theorem rollStep_acceptInc (idleLimit : Nat) (st : RollStatus)
    (prev : StableReading) (k : Nat) (newNet : ℚ) (cycle : Int)
    (hlo : SCALE_RESOLUTION ≤ |newNet - prev.netWeightGrams|)
    (hhi : |newNet - prev.netWeightGrams| < MIN_EXTRUDER_TENSION)
    (hpos : 0 < newNet - prev.netWeightGrams) :
    rollStep idleLimit ⟨st, some prev, k⟩ false newNet cycle =
      ⟨RollStatus.load, some ⟨newNet, cycle⟩, 0⟩ :=
  calc rollStep idleLimit ⟨st, some prev, k⟩ false newNet cycle
      = if SCALE_RESOLUTION ≤ |newNet - prev.netWeightGrams| ∧
            |newNet - prev.netWeightGrams| < MIN_EXTRUDER_TENSION then
          rollAccept newNet cycle (newNet - prev.netWeightGrams)
        else rollHold idleLimit ⟨st, some prev, k⟩ |newNet - prev.netWeightGrams| := rfl
    _ = rollAccept newNet cycle (newNet - prev.netWeightGrams) := if_pos ⟨hlo, hhi⟩
    _ = ⟨RollStatus.load, some ⟨newNet, cycle⟩, 0⟩ := if_pos hpos

/-- Branch lemma: an accepted decrease sends the machine to PRINTING. -/
theorem rollStep_acceptDec (idleLimit : Nat) (st : RollStatus)
    (prev : StableReading) (k : Nat) (newNet : ℚ) (cycle : Int)
    (hlo : SCALE_RESOLUTION ≤ |newNet - prev.netWeightGrams|)
    (hhi : |newNet - prev.netWeightGrams| < MIN_EXTRUDER_TENSION)
    (hneg : ¬ 0 < newNet - prev.netWeightGrams) :
    rollStep idleLimit ⟨st, some prev, k⟩ false newNet cycle =
      ⟨RollStatus.printing, some ⟨newNet, cycle⟩, 0⟩ :=
  calc rollStep idleLimit ⟨st, some prev, k⟩ false newNet cycle
      = if SCALE_RESOLUTION ≤ |newNet - prev.netWeightGrams| ∧
            |newNet - prev.netWeightGrams| < MIN_EXTRUDER_TENSION then
          rollAccept newNet cycle (newNet - prev.netWeightGrams)
        else rollHold idleLimit ⟨st, some prev, k⟩ |newNet - prev.netWeightGrams| := rfl
    _ = rollAccept newNet cycle (newNet - prev.netWeightGrams) := if_pos ⟨hlo, hhi⟩
    _ = ⟨RollStatus.printing, some ⟨newNet, cycle⟩, 0⟩ := if_neg hneg

/-- Branch lemma: a held reading leaves a machine that is neither PRINTING
nor LOAD in its current status, only bumping the idle counter. -/
theorem rollStep_heldOther (idleLimit : Nat) (st : RollStatus)
    (prev : StableReading) (k : Nat) (newNet : ℚ) (cycle : Int)
    (hnot : ¬ (SCALE_RESOLUTION ≤ |newNet - prev.netWeightGrams| ∧
               |newNet - prev.netWeightGrams| < MIN_EXTRUDER_TENSION))
    (h1 : st ≠ RollStatus.printing) (h2 : st ≠ RollStatus.load) :
    rollStep idleLimit ⟨st, some prev, k⟩ false newNet cycle =
      ⟨st, some prev, k + 1⟩ :=
  calc rollStep idleLimit ⟨st, some prev, k⟩ false newNet cycle
      = if SCALE_RESOLUTION ≤ |newNet - prev.netWeightGrams| ∧
            |newNet - prev.netWeightGrams| < MIN_EXTRUDER_TENSION then
          rollAccept newNet cycle (newNet - prev.netWeightGrams)
        else rollHold idleLimit ⟨st, some prev, k⟩ |newNet - prev.netWeightGrams| := rfl
    _ = rollHold idleLimit ⟨st, some prev, k⟩ |newNet - prev.netWeightGrams| := if_neg hnot
    _ = if st = RollStatus.load then
          (if |newNet - prev.netWeightGrams| < SCALE_RESOLUTION then
            (⟨RollStatus.ready, some prev, k + 1⟩ : MachineState)
           else ⟨st, some prev, k + 1⟩)
        else ⟨st, some prev, k + 1⟩ := if_neg h1
    _ = ⟨st, some prev, k + 1⟩ := if_neg h2

/-- Counterexample to C7 as stated: a reading 300 g above the last accepted
one is never an accepted reading — the Tension Filter holds it as an
artifact (300 ≥ 50), so from READY the machine stays READY, not LOAD. -/
theorem rollStep_plus300_not_load :
    (rollStep 5 { status := RollStatus.ready, lastReading := some ⟨500, 0⟩,
                  idleCycles := 0 } false 800 1).status = RollStatus.ready ∧
    RollStatus.ready ≠ RollStatus.load ∧
    tensionFilter ⟨500, 0⟩ 800 1 = ⟨500, 0⟩ := by
  refine ⟨?_, by decide, ?_⟩
  · rw [rollStep_heldOther 5 RollStatus.ready ⟨500, 0⟩ 0 800 1
        (by norm_num [SCALE_RESOLUTION, MIN_EXTRUDER_TENSION])
        (by decide) (by decide)]
  · unfold tensionFilter classifyDelta
    rw [if_neg (by norm_num [SCALE_RESOLUTION]),
        if_neg (by norm_num [MIN_EXTRUDER_TENSION])]

/-- C7 (amended): from every state, an external set-zero or roll-tare-change
event sends the machine to LOAD, and an accepted reading showing an
increase — one whose delta lies in the Tension Filter's accept band, e.g.
+30 g — sends the machine to LOAD; a +300 g jump is instead held by the
Tension Filter and triggers no transition to LOAD. -/
theorem rollStep_to_load (idleLimit : Nat) (s : MachineState)
    (prev : StableReading) (newNet : ℚ) (cycle : Int) :
    (rollStep idleLimit s true newNet cycle).status = RollStatus.load ∧
    (s.lastReading = some prev →
      SCALE_RESOLUTION ≤ |newNet - prev.netWeightGrams| →
      |newNet - prev.netWeightGrams| < MIN_EXTRUDER_TENSION →
      0 < newNet - prev.netWeightGrams →
      (rollStep idleLimit s false newNet cycle).status = RollStatus.load) := by
  constructor
  · rw [rollStep_externalEvt]
  · intro hprev hlo hhi hpos
    obtain ⟨st, lr, k⟩ := s
    change lr = some prev at hprev
    subst hprev
    rw [rollStep_acceptInc idleLimit st prev k newNet cycle hlo hhi hpos]

/-- Witness for C7: from PRINTING, an external event gives LOAD; and from
READY at 500 g, an accepted +30 g reading gives LOAD. -/
theorem rollStep_to_load_witness :
    (rollStep 5 { status := RollStatus.printing, lastReading := some ⟨500, 0⟩,
                  idleCycles := 0 } true 500 1).status = RollStatus.load ∧
    (rollStep 5 { status := RollStatus.ready, lastReading := some ⟨500, 0⟩,
                  idleCycles := 0 } false 530 1).status = RollStatus.load :=
  ⟨(rollStep_to_load 5 { status := RollStatus.printing,
                         lastReading := some ⟨500, 0⟩, idleCycles := 0 }
      ⟨500, 0⟩ 500 1).1,
   (rollStep_to_load 5 { status := RollStatus.ready,
                         lastReading := some ⟨500, 0⟩, idleCycles := 0 }
      ⟨500, 0⟩ 530 1).2
     rfl
     (by norm_num [SCALE_RESOLUTION, abs_of_nonneg])
     (by norm_num [MIN_EXTRUDER_TENSION, abs_of_nonneg])
     (by norm_num)⟩

/-- Counterexample to C8 as stated: starting from the initial NONE machine,
the first reading (800 g) brings it to READY, but a next reading 60 g lower
has its delta held by the Tension Filter (60 ≥ 50, an artifact), so the
machine stays READY instead of moving to PRINTING. -/
theorem rollStep_drop60_not_printing :
    (rollStep 5 initialMachine false 800 0).status = RollStatus.ready ∧
    (rollStep 5 (rollStep 5 initialMachine false 800 0) false 740 1).status =
      RollStatus.ready ∧
    RollStatus.ready ≠ RollStatus.printing := by
  have h1 : rollStep 5 initialMachine false 800 0 =
      ⟨RollStatus.ready, some ⟨800, 0⟩, 0⟩ := by
    unfold initialMachine
    exact rollStep_firstValid 5 RollStatus.idleNone 0 800 0
  have h2 : rollStep 5 ⟨RollStatus.ready, some ⟨800, 0⟩, 0⟩ false 740 1 =
      ⟨RollStatus.ready, some ⟨800, 0⟩, 0 + 1⟩ :=
    rollStep_heldOther 5 RollStatus.ready ⟨800, 0⟩ 0 740 1
      (by norm_num [SCALE_RESOLUTION, MIN_EXTRUDER_TENSION])
      (by decide) (by decide)
  rw [h1, h2]
  exact ⟨rfl, rfl, by decide⟩

/-- C8 (amended): starting in NONE, the first valid StableReading moves the
machine to READY, and a subsequent reading whose drop lies inside the
Tension Filter's accept band (`0.15 ≤ drop < 50`, e.g. 40 g) is treated as
a real decrease and moves the machine to PRINTING; a 60 g drop is at or
above the 50 g tension ceiling, is held as an artifact, and leaves the
machine in READY. -/
theorem rollStep_none_ready_printing (idleLimit : Nat) (w1 w2 : ℚ)
    (c1 c2 : Int)
    (hlo : SCALE_RESOLUTION ≤ |w2 - w1|)
    (hhi : |w2 - w1| < MIN_EXTRUDER_TENSION)
    (hdrop : w2 < w1) :
    (rollStep idleLimit initialMachine false w1 c1).status = RollStatus.ready ∧
    (rollStep idleLimit (rollStep idleLimit initialMachine false w1 c1)
        false w2 c2).status = RollStatus.printing := by
  have h1 : rollStep idleLimit initialMachine false w1 c1 =
      ⟨RollStatus.ready, some ⟨w1, c1⟩, 0⟩ := by
    unfold initialMachine
    exact rollStep_firstValid idleLimit RollStatus.idleNone 0 w1 c1
  constructor
  · rw [h1]
  · rw [h1, rollStep_acceptDec idleLimit RollStatus.ready ⟨w1, c1⟩ 0 w2 c2
        hlo hhi (not_lt.mpr (sub_nonpos.mpr hdrop.le))]

/-- Witness for C8: first reading 800 g, second reading 760 g — a 40 g drop
inside the accept band — ends in PRINTING. -/
theorem rollStep_none_ready_printing_witness :
    (rollStep 5 initialMachine false 800 0).status = RollStatus.ready ∧
    (rollStep 5 (rollStep 5 initialMachine false 800 0) false 760 1).status =
      RollStatus.printing :=
  rollStep_none_ready_printing 5 800 760 0 1
    (by norm_num [SCALE_RESOLUTION, abs_of_nonpos])
    (by norm_num [MIN_EXTRUDER_TENSION, abs_of_nonpos])
    (by norm_num)

end FilamentMonitor
